import Mathlib

/-!
Verification of the job-scheduling and durable-state core of the
kokuchi-kun announcement bot.

The Python source is shallowly embedded:
* `utils/announcement_state.py` → `AnnouncementState` and its transitions;
* `utils/scheduler.py`          → `SchedulerState` with `schedule_announcement`,
  `_post_announcement`, `restore_jobs`, `list_jobs`, `cancel_job`;
* `utils/vrchat_api.py`         → `vrc_post_announcement`, the auth-retry wrapper
  around the venue-platform post call;
* `cogs/announcement.py`        → the approval staleness gate
  `_process_approved_announcement` and the OTP response handling of `on_message`.

Python dicts are modelled as insertion-ordered association lists, Python sets
as duplicate-free lists, timestamps as integers, and the asynchronous
environment (authentication results, venue-platform call outcomes) as explicit
parameters.
-/

set_option maxRecDepth 4000

namespace Kokuchi

/-! ### Association lists modelling Python dicts (insertion ordered) -/

/-- Python dict lookup `d[k]`: first binding of `k`, scanning left to right. -/
def lookupKey {α : Type} : List (String × α) → String → Option α
  | [], _ => none
  | (k', v) :: rest, k => if k' = k then some v else lookupKey rest k

/-- Python dict write `d[k] = v`: overwrite in place when the key exists, else append
(Python dicts keep insertion order and updating does not move the key). -/
def upsert {α : Type} (d : List (String × α)) (k : String) (v : α) :
    List (String × α) :=
  if (lookupKey d k).isSome then
    d.map (fun p => if p.1 = k then (k, v) else p)
  else d ++ [(k, v)]

/-- Python `del d[k]` / `d.pop(k, None)`: drop every binding of `k`. -/
def eraseKey {α : Type} (d : List (String × α)) (k : String) :
    List (String × α) :=
  d.filter (fun p => p.1 ≠ k)

/-- Python `set.add`. -/
def setAdd (s : List String) (m : String) : List String :=
  if m ∈ s then s else s ++ [m]

/-- Python `set.discard`. -/
def setDiscard (s : List String) (m : String) : List String :=
  s.filter (fun x => x ≠ m)

/-- Python list slice `l[-n:]` (note `l[-0:]` is the whole list). -/
def pyLastSlice {α : Type} (l : List α) (n : Nat) : List α :=
  if n = 0 then l else l.drop (l.length - n)

/-- Substring containment, Python's `pat in s`. -/
def startsWithChars : List Char → List Char → Bool
  | [], _ => true
  | _ :: _, [] => false
  | a :: pa, b :: pb => a == b && startsWithChars pa pb

/-- Python `pat in s` on strings. -/
def strContains (s pat : String) : Bool :=
  (List.range (s.length + 1)).any (fun i => startsWithChars pat.data (s.data.drop i))

/-! ### Messages (utils/messages.py), the strings the code branches on -/

namespace Messages

def NOT_AUTHENTICATED : String := "Not authenticated"

def AUTH_FAIL_RETRY : String := "Authentication failed, will retry after reauth"

end Messages

/-! ### Announcement state store (utils/announcement_state.py) -/

/-- State of `AnnouncementState.__init__`: the four tracking structures plus the
history capacity (`max_history`, default 1000 at the call sites). -/
structure AnnouncementState where
  pending_requests : List (String × Option String)
  queued_announcements : List String
  history : List String
  calendar_events : List (String × String)
  max_history : Nat
deriving DecidableEq, Repr

namespace AnnouncementState

/-- Fresh store with the given `max_history` capacity. -/
def init (cap : Nat) : AnnouncementState :=
  { pending_requests := [], queued_announcements := [], history := [],
    calendar_events := [], max_history := cap }

def is_pending (st : AnnouncementState) (msg_id : String) : Bool :=
  (lookupKey st.pending_requests msg_id).isSome

def is_queued (st : AnnouncementState) (msg_id : String) : Bool :=
  decide (msg_id ∈ st.queued_announcements)

def is_in_history (st : AnnouncementState) (msg_id : String) : Bool :=
  decide (msg_id ∈ st.history)

def has_calendar_event (st : AnnouncementState) (msg_id : String) : Bool :=
  (lookupKey st.calendar_events msg_id).isSome

def get_calendar_event_id (st : AnnouncementState) (msg_id : String) :
    Option String :=
  lookupKey st.calendar_events msg_id

/-- Lookup `pending_requests.get(msg_id)`: the stored reply id, or `None` whether the
stored value is `None` or the key is absent. -/
def get_bot_reply_id (st : AnnouncementState) (msg_id : String) :
    Option String :=
  (lookupKey st.pending_requests msg_id).getD none

def add_pending (st : AnnouncementState) (msg_id : String) : AnnouncementState :=
  { st with pending_requests := upsert st.pending_requests msg_id none }

def mark_queued (st : AnnouncementState) (msg_id bot_reply_id : String) :
    AnnouncementState :=
  { st with
    pending_requests := upsert st.pending_requests msg_id (some bot_reply_id),
    queued_announcements := setAdd st.queued_announcements msg_id }

/-- Transition `mark_completed`: append to history unless already present, trim with
`history[-max_history:]` when over capacity, discard from the queued set,
pop from the pending map. -/
def mark_completed (st : AnnouncementState) (msg_id : String) :
    AnnouncementState :=
  let history :=
    if msg_id ∈ st.history then st.history
    else
      let h := st.history ++ [msg_id]
      if st.max_history < h.length then pyLastSlice h st.max_history else h
  { st with
    history := history,
    queued_announcements := setDiscard st.queued_announcements msg_id,
    pending_requests := eraseKey st.pending_requests msg_id }

/-- Transition `cancel`: discard from the queued set, set `pending_requests[msg_id] = None`
(an unconditional dict write), and `calendar_events.pop(msg_id, None)`. -/
def cancel (st : AnnouncementState) (msg_id : String) :
    AnnouncementState × Option String :=
  ({ st with
     queued_announcements := setDiscard st.queued_announcements msg_id,
     pending_requests := upsert st.pending_requests msg_id none,
     calendar_events := eraseKey st.calendar_events msg_id },
   lookupKey st.calendar_events msg_id)

def set_calendar_event (st : AnnouncementState) (msg_id event_id : String) :
    AnnouncementState :=
  { st with calendar_events := upsert st.calendar_events msg_id event_id }

end AnnouncementState

/-! ### Scheduler (utils/scheduler.py) -/

inductive JobStatus
  | pending
  | success
  | failed
deriving DecidableEq, Repr

/-- One entry of the jobs table `self.jobs`: the dict built at `schedule_announcement` or
restored by `restore_jobs`.  `event_title = none` models a snapshot dict from
the older schema that lacks the `event_title` key. -/
structure Job where
  id : String
  message_id : String
  timestamp : Int
  event_start_timestamp : Option Int
  event_end_timestamp : Option Int
  title : String
  event_title : Option String
  content : String
  status : JobStatus
deriving DecidableEq, Repr

/-- One APScheduler timer registration: the run date and the
`misfire_grace_time` passed to `add_job` (`none` when the call site passes no
grace and the library default applies). -/
structure TimerReg where
  runTimestamp : Int
  misfire_grace_time : Option Nat
deriving DecidableEq, Repr

/-- Scheduler state: the APScheduler job store plus the `self.jobs` dict. -/
structure SchedulerState where
  timers : List (String × TimerReg)
  jobs : List (String × Job)
deriving DecidableEq, Repr

namespace SchedulerState

/-- The library call `APScheduler.add_job`: registers a timer under `id`; raises
`ConflictingIdError` (modelled as `none`) when the id is already registered. -/
def add_job (timers : List (String × TimerReg)) (id : String) (reg : TimerReg) :
    Option (List (String × TimerReg)) :=
  if (lookupKey timers id).isSome then none else some (timers ++ [(id, reg)])

/-- Operation `schedule_announcement`: register the timer with
`misfire_grace_time=3600`, default `event_title` to `title`, store the job
record with status `pending`.  The fresh `uuid4` job id is a parameter. -/
def schedule_announcement (st : SchedulerState) (job_id : String)
    (timestamp : Int) (title content message_id : String)
    (event_start_timestamp event_end_timestamp : Option Int)
    (event_title : Option String) : Option (SchedulerState × String) :=
  match add_job st.timers job_id
      { runTimestamp := timestamp, misfire_grace_time := some 3600 } with
  | none => none
  | some timers' =>
      let et := event_title.getD title
      let job : Job :=
        { id := job_id, message_id := message_id, timestamp := timestamp,
          event_start_timestamp := event_start_timestamp,
          event_end_timestamp := event_end_timestamp,
          title := title, event_title := some et, content := content,
          status := JobStatus.pending }
      some ({ st with timers := timers', jobs := upsert st.jobs job_id job },
            job_id)

/-- Outcome of `vrchat_api.post_announcement` as seen by the scheduler:
success, or failure with the error string. -/
inductive PResult
  | ok
  | err (msg : String)
deriving DecidableEq, Repr

/-- The timed action `_post_announcement job_id`.  Here `authenticated` is
`self.vrchat_api.authenticated`; `init_success` is the outcome of
`vrchat_api.initialize()` on the re-auth pre-check; `result` is the outcome of
the wrapped post call.  Returns the new state and the list of completion
callback invocations (each with the job snapshot passed to the callback). -/
def _post_announcement (st : SchedulerState) (job_id : String)
    (authenticated init_success : Bool) (result : PResult) :
    SchedulerState × List Job :=
  match lookupKey st.jobs job_id with
  | none => (st, [])
  | some job =>
      if authenticated = false ∧ init_success = false then
        let j := { job with status := JobStatus.failed }
        ({ st with jobs := upsert st.jobs job_id j }, [j])
      else
        match result with
        | PResult.ok =>
            let j := { job with status := JobStatus.success }
            ({ st with jobs := eraseKey (upsert st.jobs job_id j) job_id }, [j])
        | PResult.err msg =>
            let j := { job with status := JobStatus.failed }
            let st1 := { st with jobs := upsert st.jobs job_id j }
            if strContains msg "Authentication failed" then (st1, [])
            else (st1, [j])

/-- One iteration of the `restore_jobs` loop: past-due snapshots are appended
to the skipped list; otherwise the timer is re-registered (no explicit
`misfire_grace_time`), `event_title` is defaulted, and the record enters the
live table.  An `add_job` conflict raises, is caught, and the snapshot is
dropped silently. -/
def restoreStep (now : Int) (acc : SchedulerState × Nat × List Job)
    (job : Job) : SchedulerState × Nat × List Job :=
  let st := acc.1
  let count := acc.2.1
  let skipped := acc.2.2
  if job.timestamp ≤ now then (st, count, skipped ++ [job])
  else
    match add_job st.timers job.id
        { runTimestamp := job.timestamp, misfire_grace_time := none } with
    | none => (st, count, skipped)
    | some timers' =>
        let j := { job with event_title := some (job.event_title.getD job.title) }
        ({ st with timers := timers', jobs := upsert st.jobs job.id j },
         count + 1, skipped)

/-- Operation `restore_jobs`: fold the restore loop over the snapshot list, returning
`(state, restored_count, skipped_jobs)`. -/
def restore_jobs (st : SchedulerState) (now : Int) (jobs_list : List Job) :
    SchedulerState × Nat × List Job :=
  jobs_list.foldl (restoreStep now) (st, 0, [])

/-- Operation `list_jobs`: the stored jobs whose id is still registered with the timer
subsystem. -/
def list_jobs (st : SchedulerState) : List Job :=
  (st.jobs.filter (fun p => (lookupKey st.timers p.2.id).isSome)).map Prod.snd

/-- Operation `cancel_job`: `False` when the id is not in the live table; otherwise
`remove_job` (which raises, caught to `False`, when the timer is already
gone), then delete the record and return `True`. -/
def cancel_job (st : SchedulerState) (job_id : String) :
    SchedulerState × Bool :=
  if (lookupKey st.jobs job_id).isSome then
    if (lookupKey st.timers job_id).isSome then
      ({ timers := eraseKey st.timers job_id, jobs := eraseKey st.jobs job_id },
       true)
    else (st, false)
  else (st, false)

end SchedulerState

/-! ### Venue-platform auth-retry wrapper (utils/vrchat_api.py) -/

namespace VRChatAPI

/-- Outcome of one raw `add_group_post` call: a created post, an
`UnauthorizedException`, or any other exception. -/
inductive CallOutcome
  | ok (post_id : String)
  | unauthorized (msg : String)
  | exn (msg : String)
deriving DecidableEq, Repr

/-- Result dict of `post_announcement`. -/
inductive ApiResult
  | success (post_id : String)
  | failure (error : String)
deriving DecidableEq, Repr

/-- Observable trace of one `post_announcement` call: its result, how many
times the raw post call ran, how many re-authentication attempts were made,
and how many entries were appended to `failed_posts`. -/
structure PostTrace where
  result : ApiResult
  fn_calls : Nat
  reauth_attempts : Nat
  failed_posts_added : Nat
deriving DecidableEq, Repr

/-- Wrapper `post_announcement`: refuse when not authenticated or without an API
client; otherwise run the post call (`first`).  On `UnauthorizedException`
re-authenticate once (`reauth_success`); on re-auth success run the post call
exactly once more (`second`) and surface its outcome, any exception of the
retry being caught to a generic failure; on re-auth failure queue the post in
`failed_posts` and return the distinguished auth-failed error.  Any other
exception of the first call is caught to a generic failure with no retry. -/
def vrc_post_announcement (authenticated api_client : Bool)
    (first : CallOutcome) (reauth_success : Bool) (second : CallOutcome) :
    PostTrace :=
  if authenticated = false ∨ api_client = false then
    { result := ApiResult.failure Messages.NOT_AUTHENTICATED,
      fn_calls := 0, reauth_attempts := 0, failed_posts_added := 0 }
  else
    match first with
    | CallOutcome.ok p =>
        { result := ApiResult.success p, fn_calls := 1,
          reauth_attempts := 0, failed_posts_added := 0 }
    | CallOutcome.exn m =>
        { result := ApiResult.failure m, fn_calls := 1,
          reauth_attempts := 0, failed_posts_added := 0 }
    | CallOutcome.unauthorized _ =>
        if reauth_success then
          match second with
          | CallOutcome.ok p =>
              { result := ApiResult.success p, fn_calls := 2,
                reauth_attempts := 1, failed_posts_added := 0 }
          | CallOutcome.unauthorized m =>
              { result := ApiResult.failure m, fn_calls := 2,
                reauth_attempts := 1, failed_posts_added := 0 }
          | CallOutcome.exn m =>
              { result := ApiResult.failure m, fn_calls := 2,
                reauth_attempts := 1, failed_posts_added := 0 }
        else
          { result := ApiResult.failure Messages.AUTH_FAIL_RETRY,
            fn_calls := 1, reauth_attempts := 1, failed_posts_added := 1 }

end VRChatAPI

/-! ### Timer subsystem lateness semantics -/

/-- Modelled from the spec: the timer subsystem (the external APScheduler
library, not part of this repository) fires a due job only while the delay
past its run date is within the job's misfire grace; beyond it the job is
dropped as a missed fire.  A registration made without an explicit
`misfire_grace_time` gets the library's documented default of 1 second. -/
def fires_when_late (reg : TimerReg) (now : Int) : Bool :=
  decide (now - reg.runTimestamp ≤ (reg.misfire_grace_time.getD 1 : Nat))

/-! ### Approval orchestrator and OTP handling (cogs/announcement.py) -/

namespace AnnouncementCog

/-- Fields of a successful `ai_processor.process_announcement` result that
`_process_approved_announcement` reads (`timestamp` is kept equal to
`announcement_timestamp` by the extractor, for backward compatibility). -/
structure AIResult where
  success : Bool
  error : String
  timestamp : Int
  announcement_timestamp : Int
  event_start_timestamp : Int
  event_end_timestamp : Int
  title : String
  content : String
  event_title : Option String
deriving DecidableEq, Repr

/-- Visible outcome of `_process_approved_announcement`. -/
inductive ApprovalOutcome
  | ai_error (msg : String)
  | past_time_warning
  | booked (job_id : String)
  | errored
deriving DecidableEq, Repr

/-- Handler `_process_approved_announcement`: bail out on extraction failure; reject
with the past-time warning when the extracted due time is more than 3600
seconds before now (strict `<`), without touching the scheduler; otherwise
call `schedule_announcement` and confirm with the job id.  The fresh `uuid4`
job id is a parameter; a scheduler exception is caught by the surrounding
`try` (`errored`). -/
def _process_approved_announcement (now : Int) (result : AIResult)
    (st : SchedulerState) (fresh_job_id message_id : String) :
    ApprovalOutcome × SchedulerState :=
  if result.success = false then (ApprovalOutcome.ai_error result.error, st)
  else if result.timestamp < now - 3600 then
    (ApprovalOutcome.past_time_warning, st)
  else
    match st.schedule_announcement fresh_job_id result.announcement_timestamp
        result.title result.content message_id
        (some result.event_start_timestamp) (some result.event_end_timestamp)
        result.event_title with
    | some (st', jid) => (ApprovalOutcome.booked jid, st')
    | none => (ApprovalOutcome.errored, st)

/-- Timeout of `asyncio.wait_for(future, timeout=300)` in `_request_otp`:
the OTP wait timeout in seconds. -/
def otpTimeoutSeconds : Nat := 300

/-- How one OTP wait ends: the future is resolved with a code, or the wait
times out. -/
inductive OtpWait
  | answered (otp : String)
  | timedOut
deriving DecidableEq, Repr

/-- Return value of `_request_otp`: the code when answered, `None` on
timeout. -/
def requestOtpResult : OtpWait → Option String
  | OtpWait.answered o => some o
  | OtpWait.timedOut => none

/-- The OTP branch of `on_message`: scan `self.otp_requests` in registration
order and resolve the first future that is not yet done with the message
content, then stop.  An entry `(id, none)` is an unresolved future,
`(id, some v)` a resolved one.  The incoming message carries no correlation
id. -/
def setFirstPending : List (String × Option String) → String →
    List (String × Option String)
  | [], _ => []
  | (id, none) :: rest, c => (id, some c) :: rest
  | (id, some v) :: rest, c => (id, some v) :: setFirstPending rest c

end AnnouncementCog

/-! ### Association-list lemmas -/

theorem lookupKey_append_of_none {α : Type} {d1 : List (String × α)}
    (d2 : List (String × α)) {k : String} (h : lookupKey d1 k = none) :
    lookupKey (d1 ++ d2) k = lookupKey d2 k := by
  induction d1 with
  | nil => rfl
  | cons hd tl ih =>
      obtain ⟨k', v⟩ := hd
      by_cases hk : k' = k
      · simp [lookupKey, hk] at h
      · simp [lookupKey, hk] at h ⊢
        exact ih h

theorem lookupKey_append_of_some {α : Type} {d1 : List (String × α)}
    (d2 : List (String × α)) {k : String} {v : α}
    (h : lookupKey d1 k = some v) :
    lookupKey (d1 ++ d2) k = some v := by
  induction d1 with
  | nil => simp [lookupKey] at h
  | cons hd tl ih =>
      obtain ⟨k', w⟩ := hd
      by_cases hk : k' = k
      · simp [lookupKey, hk] at h ⊢; exact h
      · simp [lookupKey, hk] at h ⊢
        exact ih h

theorem upsertFn_app_eq {α : Type} (k : String) (v : α) (a : String) (b : α)
    (h : a = k) :
    (if (a, b).1 = k then (k, v) else (a, b)) = (k, v) := by
  simp [h]

theorem upsertFn_app_ne {α : Type} (k : String) (v : α) (a : String) (b : α)
    (h : ¬a = k) :
    (if (a, b).1 = k then (k, v) else (a, b)) = (a, b) := by
  simp [h]

theorem lookupKey_map_upsertFn {α : Type} (d : List (String × α))
    (k : String) (v : α) :
    lookupKey (d.map (fun p => if p.1 = k then (k, v) else p)) k
      = if (lookupKey d k).isSome then some v else none := by
  induction d with
  | nil => simp [lookupKey]
  | cons hd tl ih =>
      obtain ⟨k', w⟩ := hd
      rw [List.map_cons]
      by_cases hk : k' = k
      · rw [upsertFn_app_eq k v k' w hk]
        simp [lookupKey, hk]
      · rw [upsertFn_app_ne k v k' w hk]
        simp [lookupKey, hk, ih]

theorem lookupKey_map_upsertFn_ne {α : Type} (d : List (String × α))
    {k k' : String} (v : α) (h : k ≠ k') :
    lookupKey (d.map (fun p => if p.1 = k then (k, v) else p)) k'
      = lookupKey d k' := by
  induction d with
  | nil => rfl
  | cons hd tl ih =>
      obtain ⟨a, b⟩ := hd
      rw [List.map_cons]
      by_cases ha : a = k
      · rw [upsertFn_app_eq k v a b ha]
        have hk' : ¬k = k' := h
        have ha' : ¬a = k' := by rw [ha]; exact hk'
        simp [lookupKey, hk', ha', ih]
      · rw [upsertFn_app_ne k v a b ha]
        simp [lookupKey, ih]

theorem lookupKey_upsert_self {α : Type} (d : List (String × α))
    (k : String) (v : α) :
    lookupKey (upsert d k v) k = some v := by
  unfold upsert
  by_cases h : (lookupKey d k).isSome
  · simp [h, lookupKey_map_upsertFn]
  · simp only [h, if_false, Bool.false_eq_true]
    have hn : lookupKey d k = none := by
      cases hd : lookupKey d k
      · rfl
      · rw [hd] at h; simp at h
    rw [lookupKey_append_of_none _ hn]
    simp [lookupKey]

theorem lookupKey_upsert_ne {α : Type} (d : List (String × α))
    {k k' : String} (v : α) (h : k ≠ k') :
    lookupKey (upsert d k v) k' = lookupKey d k' := by
  unfold upsert
  by_cases hs : (lookupKey d k).isSome
  · simp [hs, lookupKey_map_upsertFn_ne d v h]
  · simp only [hs, if_false, Bool.false_eq_true]
    cases hd : lookupKey d k' with
    | none =>
        rw [lookupKey_append_of_none _ hd]
        simp [lookupKey, h]
    | some w => rw [lookupKey_append_of_some _ hd]

theorem upsert_of_lookup_none {α : Type} {d : List (String × α)}
    {k : String} (v : α) (h : lookupKey d k = none) :
    upsert d k v = d ++ [(k, v)] := by
  simp [upsert, h]

theorem length_upsert_of_none {α : Type} {d : List (String × α)}
    {k : String} (v : α) (h : lookupKey d k = none) :
    (upsert d k v).length = d.length + 1 := by
  simp [upsert_of_lookup_none v h]

theorem eraseKey_cons {α : Type} (a : String) (b : α)
    (tl : List (String × α)) (k : String) :
    eraseKey ((a, b) :: tl) k
      = if a = k then eraseKey tl k else (a, b) :: eraseKey tl k := by
  by_cases h : a = k <;> simp [eraseKey, List.filter_cons, h]

theorem lookupKey_eraseKey_self {α : Type} (d : List (String × α))
    (k : String) :
    lookupKey (eraseKey d k) k = none := by
  induction d with
  | nil => rfl
  | cons hd tl ih =>
      obtain ⟨a, b⟩ := hd
      rw [eraseKey_cons]
      by_cases ha : a = k
      · simp [ha, ih]
      · simp [ha, lookupKey, ih]

theorem lookupKey_eraseKey_ne {α : Type} (d : List (String × α))
    {k k' : String} (h : k ≠ k') :
    lookupKey (eraseKey d k) k' = lookupKey d k' := by
  induction d with
  | nil => rfl
  | cons hd tl ih =>
      obtain ⟨a, b⟩ := hd
      rw [eraseKey_cons]
      by_cases ha : a = k
      · subst ha
        have ha' : ¬a = k' := h
        simp [lookupKey, ha', ih]
      · simp [lookupKey, ha, ih]

theorem mem_eraseKey_iff {α : Type} {d : List (String × α)}
    {k : String} {p : String × α} :
    p ∈ eraseKey d k ↔ p ∈ d ∧ p.1 ≠ k := by
  simp [eraseKey, List.mem_filter]

theorem not_mem_setDiscard (s : List String) (m : String) :
    m ∉ setDiscard s m := by
  simp [setDiscard, List.mem_filter]

/-! ### Claim C9: the state store's cancel operation -/

/-- C9: for every request id, `AnnouncementState.cancel` removes it from the
queued set, resets its bot-reply id to null, and pops and returns the
associated calendar event id if one exists (`has_calendar_event` is false
afterwards), returning `none` when no calendar event was associated. -/
theorem C9_cancel_returns_calendar (st : AnnouncementState) (r : String) :
    (st.cancel r).2 = st.get_calendar_event_id r ∧
    (st.cancel r).1.is_queued r = false ∧
    (st.cancel r).1.get_bot_reply_id r = none ∧
    (st.cancel r).1.has_calendar_event r = false ∧
    (st.has_calendar_event r = false → (st.cancel r).2 = none) := by
  refine ⟨rfl, ?_, ?_, ?_, ?_⟩
  · simp [AnnouncementState.cancel, AnnouncementState.is_queued, setDiscard,
      List.mem_filter]
  · simp [AnnouncementState.cancel, AnnouncementState.get_bot_reply_id,
      lookupKey_upsert_self]
  · simp [AnnouncementState.cancel, AnnouncementState.has_calendar_event,
      lookupKey_eraseKey_self]
  · intro h
    have hn : lookupKey st.calendar_events r = none := by
      cases hc : lookupKey st.calendar_events r with
      | none => rfl
      | some v => simp [AnnouncementState.has_calendar_event, hc] at h
    simpa [AnnouncementState.cancel] using hn

/-- Witness for C9: a queued request holding calendar event "cal1" yields
"cal1" from cancel and no calendar event afterwards; a request with no
calendar event yields `none`. -/
theorem C9_witness :
    (((((AnnouncementState.init 1000).mark_queued "m1" "b1").set_calendar_event
        "m1" "cal1").cancel "m1").2 = some "cal1" ∧
      ((((AnnouncementState.init 1000).mark_queued "m1" "b1").set_calendar_event
        "m1" "cal1").cancel "m1").1.has_calendar_event "m1" = false) ∧
    (((AnnouncementState.init 1000).mark_queued "m2" "b2").cancel "m2").2
      = none := by
  refine ⟨⟨?_, ?_⟩, ?_⟩
  · have h := (C9_cancel_returns_calendar
      ((((AnnouncementState.init 1000).mark_queued "m1" "b1")).set_calendar_event
        "m1" "cal1") "m1").1
    rw [h]; decide
  · exact (C9_cancel_returns_calendar _ "m1").2.2.2.1
  · exact (C9_cancel_returns_calendar
      (((AnnouncementState.init 1000).mark_queued "m2" "b2")) "m2").2.2.2.2
      (by decide)

/-! ### Claim C10: cancel unconditionally inserts into the pending map -/

/-- C10: after `AnnouncementState.cancel r` — even for an id the store has
never seen — the pending map contains `r` mapped to null: `cancel` writes
`pending_requests[r] = None` unconditionally, so cancelling an unknown id
grows the pending map and makes `is_pending r` true. -/
theorem C10_cancel_unconditional_pending (st : AnnouncementState) (r : String) :
    (st.cancel r).1.is_pending r = true ∧
    (st.is_pending r = false →
      (st.cancel r).1.pending_requests.length
        = st.pending_requests.length + 1) := by
  constructor
  · simp [AnnouncementState.cancel, AnnouncementState.is_pending,
      lookupKey_upsert_self]
  · intro h
    have hn : lookupKey st.pending_requests r = none := by
      cases hp : lookupKey st.pending_requests r with
      | none => rfl
      | some v => simp [AnnouncementState.is_pending, hp] at h
    simp [AnnouncementState.cancel, length_upsert_of_none _ hn]

/-- Witness for C10: cancelling an id unknown to a fresh store makes it
pending and grows the pending map. -/
theorem C10_witness :
    ((AnnouncementState.init 1000).cancel "m9").1.is_pending "m9" = true ∧
    (AnnouncementState.init 1000).is_pending "m9" = false ∧
    ((AnnouncementState.init 1000).cancel "m9").1.pending_requests.length
      = (AnnouncementState.init 1000).pending_requests.length + 1 := by
  refine ⟨(C10_cancel_unconditional_pending _ _).1, by decide,
    (C10_cancel_unconditional_pending (AnnouncementState.init 1000) "m9").2
      (by decide)⟩

/-! ### Claim C3: the auth-retry wrapper around the post call -/

/-- C3: the wrapped post operation refuses with the not-authenticated error,
without invoking the call, when not authenticated; on an authorization error
it re-authenticates exactly once and, on success, invokes the call exactly
once more and returns that second outcome; on re-authentication failure it
returns the distinguished auth-failed-will-retry error; a non-authorization
exception is surfaced as a generic failure with no retry. -/
theorem C3_auth_retry_wrapper (authenticated api_client : Bool)
    (first : VRChatAPI.CallOutcome) (reauth_success : Bool)
    (second : VRChatAPI.CallOutcome) :
    (authenticated = false →
      VRChatAPI.vrc_post_announcement authenticated api_client first
          reauth_success second
        = { result := VRChatAPI.ApiResult.failure Messages.NOT_AUTHENTICATED,
            fn_calls := 0, reauth_attempts := 0, failed_posts_added := 0 }) ∧
    (∀ m, authenticated = true → api_client = true →
      first = VRChatAPI.CallOutcome.unauthorized m → reauth_success = true →
      (VRChatAPI.vrc_post_announcement authenticated api_client first
          reauth_success second).fn_calls = 2 ∧
      (VRChatAPI.vrc_post_announcement authenticated api_client first
          reauth_success second).reauth_attempts = 1 ∧
      (VRChatAPI.vrc_post_announcement authenticated api_client first
          reauth_success second).result
        = (match second with
           | VRChatAPI.CallOutcome.ok p => VRChatAPI.ApiResult.success p
           | VRChatAPI.CallOutcome.unauthorized m2 =>
               VRChatAPI.ApiResult.failure m2
           | VRChatAPI.CallOutcome.exn m2 => VRChatAPI.ApiResult.failure m2)) ∧
    (∀ m, authenticated = true → api_client = true →
      first = VRChatAPI.CallOutcome.unauthorized m → reauth_success = false →
      VRChatAPI.vrc_post_announcement authenticated api_client first
          reauth_success second
        = { result := VRChatAPI.ApiResult.failure Messages.AUTH_FAIL_RETRY,
            fn_calls := 1, reauth_attempts := 1, failed_posts_added := 1 }) ∧
    (∀ m, authenticated = true → api_client = true →
      first = VRChatAPI.CallOutcome.exn m →
      VRChatAPI.vrc_post_announcement authenticated api_client first
          reauth_success second
        = { result := VRChatAPI.ApiResult.failure m, fn_calls := 1,
            reauth_attempts := 0, failed_posts_added := 0 }) := by
  refine ⟨?_, ?_, ?_, ?_⟩
  · intro ha
    simp [VRChatAPI.vrc_post_announcement, ha]
  · intro m ha hc hf hr
    subst ha; subst hc; subst hf; subst hr
    cases second <;> simp [VRChatAPI.vrc_post_announcement]
  · intro m ha hc hf hr
    subst ha; subst hc; subst hf; subst hr
    simp [VRChatAPI.vrc_post_announcement]
  · intro m ha hc hf
    subst ha; subst hc; subst hf
    simp [VRChatAPI.vrc_post_announcement]

/-- Witness for C3 at the spec's scenario: first call unauthorized, re-auth
succeeds, second call succeeds — overall success with exactly two calls and
one re-authentication. -/
theorem C3_witness :
    (VRChatAPI.vrc_post_announcement true true
        (VRChatAPI.CallOutcome.unauthorized "401") true
        (VRChatAPI.CallOutcome.ok "p1")).fn_calls = 2 ∧
    (VRChatAPI.vrc_post_announcement true true
        (VRChatAPI.CallOutcome.unauthorized "401") true
        (VRChatAPI.CallOutcome.ok "p1")).reauth_attempts = 1 ∧
    (VRChatAPI.vrc_post_announcement true true
        (VRChatAPI.CallOutcome.unauthorized "401") true
        (VRChatAPI.CallOutcome.ok "p1")).result
      = VRChatAPI.ApiResult.success "p1" := by
  have h := (C3_auth_retry_wrapper true true
    (VRChatAPI.CallOutcome.unauthorized "401") true
    (VRChatAPI.CallOutcome.ok "p1")).2.1 "401" rfl rfl rfl rfl
  exact ⟨h.1, h.2.1, h.2.2⟩

/-! ### Claim C4: the approval staleness policy -/

/-- C4: on an approval whose extracted due time lies more than 3600 seconds
before now, `_process_approved_announcement` answers with the past-time
warning and never calls the scheduler; a due time less than 3600 seconds in
the past proceeds to `schedule_announcement` and produces the booked
confirmation, registering the job. -/
theorem C4_staleness_policy (now : Int) (result : AnnouncementCog.AIResult)
    (st : SchedulerState) (fresh_job_id message_id : String)
    (hs : result.success = true) :
    (result.timestamp < now - 3600 →
      AnnouncementCog._process_approved_announcement now result st
          fresh_job_id message_id
        = (AnnouncementCog.ApprovalOutcome.past_time_warning, st)) ∧
    (now - 3600 ≤ result.timestamp →
      lookupKey st.timers fresh_job_id = none →
      (AnnouncementCog._process_approved_announcement now result st
          fresh_job_id message_id).1
        = AnnouncementCog.ApprovalOutcome.booked fresh_job_id ∧
      lookupKey (AnnouncementCog._process_approved_announcement now result st
          fresh_job_id message_id).2.timers fresh_job_id
        = some { runTimestamp := result.announcement_timestamp,
                 misfire_grace_time := some 3600 } ∧
      (lookupKey (AnnouncementCog._process_approved_announcement now result st
          fresh_job_id message_id).2.jobs fresh_job_id).isSome = true) := by
  constructor
  · intro hlt
    simp [AnnouncementCog._process_approved_announcement, hs, hlt]
  · intro hge hfresh
    have hnlt : ¬result.timestamp < now - 3600 := not_lt.mpr hge
    have happ : AnnouncementCog._process_approved_announcement now result st
        fresh_job_id message_id
      = (AnnouncementCog.ApprovalOutcome.booked fresh_job_id,
         { timers := st.timers ++ [(fresh_job_id,
             { runTimestamp := result.announcement_timestamp,
               misfire_grace_time := some 3600 })],
           jobs := upsert st.jobs fresh_job_id
             { id := fresh_job_id, message_id := message_id,
               timestamp := result.announcement_timestamp,
               event_start_timestamp := some result.event_start_timestamp,
               event_end_timestamp := some result.event_end_timestamp,
               title := result.title,
               event_title := some (result.event_title.getD result.title),
               content := result.content, status := JobStatus.pending } }) := by
      simp [AnnouncementCog._process_approved_announcement, hs, hnlt,
        SchedulerState.schedule_announcement, SchedulerState.add_job, hfresh]
    rw [happ]
    refine ⟨rfl, ?_, ?_⟩
    · rw [lookupKey_append_of_none _ hfresh]
      simp [lookupKey]
    · simp [lookupKey_upsert_self]

/-- Witness for C4: with now = 100000, an extraction due at now − 3601 is
rejected with the past-time warning and the scheduler untouched; one due at
now − 1800 is booked. -/
theorem C4_witness :
    AnnouncementCog._process_approved_announcement 100000
        { success := true, error := "", timestamp := 96399,
          announcement_timestamp := 96399, event_start_timestamp := 100000,
          event_end_timestamp := 100300, title := "t", content := "c",
          event_title := none }
        (SchedulerState.mk [] []) "j1" "m1"
      = (AnnouncementCog.ApprovalOutcome.past_time_warning,
         SchedulerState.mk [] []) ∧
    (AnnouncementCog._process_approved_announcement 100000
        { success := true, error := "", timestamp := 98200,
          announcement_timestamp := 98200, event_start_timestamp := 100000,
          event_end_timestamp := 100300, title := "t", content := "c",
          event_title := none }
        (SchedulerState.mk [] []) "j1" "m1").1
      = AnnouncementCog.ApprovalOutcome.booked "j1" := by
  constructor
  · exact (C4_staleness_policy 100000
      { success := true, error := "", timestamp := 96399,
        announcement_timestamp := 96399, event_start_timestamp := 100000,
        event_end_timestamp := 100300, title := "t", content := "c",
        event_title := none }
      (SchedulerState.mk [] []) "j1" "m1" rfl).1 (by decide)
  · exact ((C4_staleness_policy 100000
      { success := true, error := "", timestamp := 98200,
        announcement_timestamp := 98200, event_start_timestamp := 100000,
        event_end_timestamp := 100300, title := "t", content := "c",
        event_title := none }
      (SchedulerState.mk [] []) "j1" "m1" rfl).2 (by decide) rfl).1

/-! ### Claim C5: cancel idempotence and list exclusion -/

/-- C5: for a live job id (present in the live table and registered with the
timer subsystem) `cancel_job` returns true exactly once, removing both the
timer registration and the Job record; a second call on the same id, or a
call with an unknown or already-fired id, returns false without raising; and
`list_jobs` never includes a cancelled job. -/
theorem C5_cancel_job_idempotent (st : SchedulerState) (job_id : String)
    (hwf : ∀ p ∈ st.jobs, p.2.id = p.1)
    (hj : (lookupKey st.jobs job_id).isSome = true)
    (ht : (lookupKey st.timers job_id).isSome = true) :
    (st.cancel_job job_id).2 = true ∧
    lookupKey (st.cancel_job job_id).1.jobs job_id = none ∧
    lookupKey (st.cancel_job job_id).1.timers job_id = none ∧
    ((st.cancel_job job_id).1.cancel_job job_id).2 = false ∧
    (∀ j ∈ (st.cancel_job job_id).1.list_jobs, j.id ≠ job_id) ∧
    (∀ st' : SchedulerState, ∀ x : String,
      lookupKey st'.jobs x = none → st'.cancel_job x = (st', false)) ∧
    (∀ st' : SchedulerState, ∀ x : String, ∀ j : Job,
      lookupKey st'.jobs x = some j → lookupKey st'.timers x = none →
      st'.cancel_job x = (st', false)) := by
  have hcj : st.cancel_job job_id
      = ({ timers := eraseKey st.timers job_id,
           jobs := eraseKey st.jobs job_id }, true) := by
    simp [SchedulerState.cancel_job, hj, ht]
  refine ⟨?_, ?_, ?_, ?_, ?_, ?_, ?_⟩
  · rw [hcj]
  · rw [hcj]; exact lookupKey_eraseKey_self _ _
  · rw [hcj]; exact lookupKey_eraseKey_self _ _
  · rw [hcj]
    simp [SchedulerState.cancel_job, lookupKey_eraseKey_self]
  · intro j hjmem
    rw [hcj] at hjmem
    simp only [SchedulerState.list_jobs, List.mem_map, List.mem_filter]
      at hjmem
    obtain ⟨p, ⟨hpmem, _⟩, hpj⟩ := hjmem
    have hp' := mem_eraseKey_iff.mp hpmem
    have hid := hwf p hp'.1
    rw [← hpj, hid]
    exact hp'.2
  · intro st' x hx
    simp [SchedulerState.cancel_job, hx]
  · intro st' x j hx htx
    simp [SchedulerState.cancel_job, hx, htx]

/-- Witness for C5 on a one-job scheduler state. -/
theorem C5_witness :
    ((SchedulerState.mk
        [("j1", { runTimestamp := 1000, misfire_grace_time := some 3600 })]
        [("j1", { id := "j1", message_id := "m1", timestamp := 1000,
                  event_start_timestamp := none, event_end_timestamp := none,
                  title := "t", event_title := some "t", content := "c",
                  status := JobStatus.pending })]).cancel_job "j1").2
      = true ∧
    (((SchedulerState.mk
        [("j1", { runTimestamp := 1000, misfire_grace_time := some 3600 })]
        [("j1", { id := "j1", message_id := "m1", timestamp := 1000,
                  event_start_timestamp := none, event_end_timestamp := none,
                  title := "t", event_title := some "t", content := "c",
                  status := JobStatus.pending })]).cancel_job "j1").1.cancel_job
        "j1").2 = false := by
  have h := C5_cancel_job_idempotent
    (SchedulerState.mk
      [("j1", { runTimestamp := 1000, misfire_grace_time := some 3600 })]
      [("j1", { id := "j1", message_id := "m1", timestamp := 1000,
                event_start_timestamp := none, event_end_timestamp := none,
                title := "t", event_title := some "t", content := "c",
                status := JobStatus.pending })])
    "j1" (by decide) (by decide) (by decide)
  exact ⟨h.1, h.2.2.2.1⟩

/-! ### Claim C1: auth-caused post failure keeps the job, no callback -/

/-- Counterexample to C1 as stated: when the post fails with the
authentication-caused error, `_post_announcement` does keep the job in the
live table and fires no completion callback, but the retained record has
status `failed`, not `pending` (the status is assigned before the
auth-substring check and the early return does not undo it). -/
theorem C1_counterexample :
    ((SchedulerState.mk
        [("j1", { runTimestamp := 1000, misfire_grace_time := some 3600 })]
        [("j1", { id := "j1", message_id := "m1", timestamp := 1000,
                  event_start_timestamp := none, event_end_timestamp := none,
                  title := "t", event_title := some "t", content := "c",
                  status := JobStatus.pending })])._post_announcement "j1"
        true true (SchedulerState.PResult.err Messages.AUTH_FAIL_RETRY)).2
      = [] ∧
    lookupKey ((SchedulerState.mk
        [("j1", { runTimestamp := 1000, misfire_grace_time := some 3600 })]
        [("j1", { id := "j1", message_id := "m1", timestamp := 1000,
                  event_start_timestamp := none, event_end_timestamp := none,
                  title := "t", event_title := some "t", content := "c",
                  status := JobStatus.pending })])._post_announcement "j1"
        true true
        (SchedulerState.PResult.err Messages.AUTH_FAIL_RETRY)).1.jobs "j1"
      = some { id := "j1", message_id := "m1", timestamp := 1000,
               event_start_timestamp := none, event_end_timestamp := none,
               title := "t", event_title := some "t", content := "c",
               status := JobStatus.failed } ∧
    JobStatus.failed ≠ JobStatus.pending := by
  refine ⟨by decide, by decide, by decide⟩

/-- C1 amended: on a post failure whose error indicates authentication
failure, `_post_announcement` fires no completion callback and the job stays
in the live table — in status `failed` (not `pending`) — awaiting an
externally-triggered retry; every other failure marks the job `failed` and
fires the completion callback exactly once. -/
theorem C1_amended_auth_failure_no_callback (st : SchedulerState)
    (job_id : String) (job : Job) (msg : String)
    (authenticated init_success : Bool)
    (hj : lookupKey st.jobs job_id = some job)
    (hauth : authenticated = true ∨ init_success = true) :
    (strContains msg "Authentication failed" = true →
      (st._post_announcement job_id authenticated init_success
          (SchedulerState.PResult.err msg)).2 = [] ∧
      lookupKey (st._post_announcement job_id authenticated init_success
          (SchedulerState.PResult.err msg)).1.jobs job_id
        = some { job with status := JobStatus.failed }) ∧
    (strContains msg "Authentication failed" = false →
      (st._post_announcement job_id authenticated init_success
          (SchedulerState.PResult.err msg)).2
        = [{ job with status := JobStatus.failed }] ∧
      lookupKey (st._post_announcement job_id authenticated init_success
          (SchedulerState.PResult.err msg)).1.jobs job_id
        = some { job with status := JobStatus.failed }) := by
  have hcond : ¬(authenticated = false ∧ init_success = false) := by
    rcases hauth with h | h <;> simp [h]
  constructor <;> intro hsub <;>
    simp [SchedulerState._post_announcement, hj, hcond, hsub,
      lookupKey_upsert_self]

/-- Witness for C1 amended: the auth-failure error string yields no callback
and a retained failed job; a generic error fires the callback once. -/
theorem C1_amended_witness :
    ((SchedulerState.mk
        [("j1", { runTimestamp := 1000, misfire_grace_time := some 3600 })]
        [("j1", { id := "j1", message_id := "m1", timestamp := 1000,
                  event_start_timestamp := none, event_end_timestamp := none,
                  title := "t", event_title := some "t", content := "c",
                  status := JobStatus.pending })])._post_announcement "j1"
        true true (SchedulerState.PResult.err Messages.AUTH_FAIL_RETRY)).2
      = [] ∧
    ((SchedulerState.mk
        [("j1", { runTimestamp := 1000, misfire_grace_time := some 3600 })]
        [("j1", { id := "j1", message_id := "m1", timestamp := 1000,
                  event_start_timestamp := none, event_end_timestamp := none,
                  title := "t", event_title := some "t", content := "c",
                  status := JobStatus.pending })])._post_announcement "j1"
        true true (SchedulerState.PResult.err "API error 502")).2
      = [{ id := "j1", message_id := "m1", timestamp := 1000,
           event_start_timestamp := none, event_end_timestamp := none,
           title := "t", event_title := some "t", content := "c",
           status := JobStatus.failed }] := by
  constructor
  · exact ((C1_amended_auth_failure_no_callback
      (SchedulerState.mk
        [("j1", { runTimestamp := 1000, misfire_grace_time := some 3600 })]
        [("j1", { id := "j1", message_id := "m1", timestamp := 1000,
                  event_start_timestamp := none, event_end_timestamp := none,
                  title := "t", event_title := some "t", content := "c",
                  status := JobStatus.pending })])
      "j1"
      { id := "j1", message_id := "m1", timestamp := 1000,
        event_start_timestamp := none, event_end_timestamp := none,
        title := "t", event_title := some "t", content := "c",
        status := JobStatus.pending }
      Messages.AUTH_FAIL_RETRY true true (by decide) (Or.inl rfl)).1
      (by decide)).1
  · exact ((C1_amended_auth_failure_no_callback
      (SchedulerState.mk
        [("j1", { runTimestamp := 1000, misfire_grace_time := some 3600 })]
        [("j1", { id := "j1", message_id := "m1", timestamp := 1000,
                  event_start_timestamp := none, event_end_timestamp := none,
                  title := "t", event_title := some "t", content := "c",
                  status := JobStatus.pending })])
      "j1"
      { id := "j1", message_id := "m1", timestamp := 1000,
        event_start_timestamp := none, event_end_timestamp := none,
        title := "t", event_title := some "t", content := "c",
        status := JobStatus.pending }
      "API error 502" true true (by decide) (Or.inl rfl)).2
      (by decide)).1

/-! ### Claim C7: the one-hour misfire grace window -/

/-- Counterexample to C7 as stated: a registration re-created by
`restore_jobs` carries no explicit misfire grace (the library default of one
second applies), so a restored job that comes due 1800 seconds late is
dropped as a missed fire, while a registration made by
`schedule_announcement` (grace 3600) would still fire. -/
theorem C7_counterexample :
    lookupKey ((SchedulerState.mk [] []).restore_jobs 0
        [{ id := "j1", message_id := "m1", timestamp := 1000,
           event_start_timestamp := none, event_end_timestamp := none,
           title := "t", event_title := some "t", content := "c",
           status := JobStatus.pending }]).1.timers "j1"
      = some { runTimestamp := 1000, misfire_grace_time := none } ∧
    fires_when_late { runTimestamp := 1000, misfire_grace_time := none }
        (1000 + 1800) = false ∧
    fires_when_late { runTimestamp := 1000, misfire_grace_time := some 3600 }
        (1000 + 1800) = true := by
  refine ⟨by decide, by decide, by decide⟩

/-- C7 amended: only registrations created by `schedule_announcement` carry
the one-hour (3600 s) misfire grace window and fire up to an hour late;
`restore_jobs` re-registers timers with no explicit grace, leaving restored
jobs subject to the timer subsystem's default. -/
theorem C7_amended_grace_only_on_schedule (st : SchedulerState)
    (job_id : String) (ts : Int) (title content message_id : String)
    (es ee : Option Int) (et : Option String)
    (hfresh : lookupKey st.timers job_id = none) :
    (∃ st', st.schedule_announcement job_id ts title content message_id
        es ee et = some (st', job_id) ∧
      lookupKey st'.timers job_id
        = some { runTimestamp := ts, misfire_grace_time := some 3600 } ∧
      ∀ now : Int, ts ≤ now → now ≤ ts + 3600 →
        fires_when_late
          { runTimestamp := ts, misfire_grace_time := some 3600 } now
          = true) ∧
    (∀ now : Int, ∀ job : Job, now < job.timestamp →
      lookupKey st.timers job.id = none →
      lookupKey (st.restore_jobs now [job]).1.timers job.id
        = some { runTimestamp := job.timestamp,
                 misfire_grace_time := none }) := by
  constructor
  · refine ⟨{ st with
      timers := st.timers ++ [(job_id,
        { runTimestamp := ts, misfire_grace_time := some 3600 })],
      jobs := upsert st.jobs job_id
        { id := job_id, message_id := message_id, timestamp := ts,
          event_start_timestamp := es, event_end_timestamp := ee,
          title := title, event_title := some (et.getD title),
          content := content, status := JobStatus.pending } }, ?_, ?_, ?_⟩
    · simp [SchedulerState.schedule_announcement, SchedulerState.add_job,
        hfresh]
    · rw [lookupKey_append_of_none _ hfresh]
      simp [lookupKey]
    · intro now h1 h2
      simp only [fires_when_late, Option.getD_some]
      rw [decide_eq_true_eq]
      omega
  · intro now job hfut hfr
    have hnle : ¬job.timestamp ≤ now := not_le.mpr hfut
    simp only [SchedulerState.restore_jobs, List.foldl_cons, List.foldl_nil,
      SchedulerState.restoreStep, hnle, if_false, SchedulerState.add_job,
      hfr, Option.isSome_none, Bool.false_eq_true]
    rw [lookupKey_append_of_none _ hfr]
    simp [lookupKey]

/-- Witness for C7 amended on concrete data. -/
theorem C7_amended_witness :
    lookupKey (((SchedulerState.mk [] []).schedule_announcement "j1" 1000 "t"
        "c" "m1" none none none).getD
        (SchedulerState.mk [] [], "x")).1.timers "j1"
      = some { runTimestamp := 1000, misfire_grace_time := some 3600 } ∧
    lookupKey (((SchedulerState.mk [] []).restore_jobs 0
        [{ id := "j2", message_id := "m2", timestamp := 500,
           event_start_timestamp := none, event_end_timestamp := none,
           title := "t", event_title := some "t", content := "c",
           status := JobStatus.pending }]).1).timers "j2"
      = some { runTimestamp := 500, misfire_grace_time := none } := by
  constructor
  · have h := (C7_amended_grace_only_on_schedule (SchedulerState.mk [] [])
      "j1" 1000 "t" "c" "m1" none none none rfl).1
    obtain ⟨st', heq, hlook, _⟩ := h
    rw [heq]
    exact hlook
  · exact (C7_amended_grace_only_on_schedule (SchedulerState.mk [] [])
      "j2" 500 "t" "c" "m2" none none none rfl).2 0
      { id := "j2", message_id := "m2", timestamp := 500,
        event_start_timestamp := none, event_end_timestamp := none,
        title := "t", event_title := some "t", content := "c",
        status := JobStatus.pending } (by decide) rfl

/-! ### Claim C8: OTP responses and correlation ids -/

/-- Counterexample to C8 as stated: an incoming OTP response carries no
correlation id; with challenges "a" and "b" both outstanding, the handler
resolves the first pending future ("a") and leaves "b" unresolved, so a
response answering challenge "b" resolves another challenge's future. -/
theorem C8_counterexample :
    AnnouncementCog.setFirstPending [("a", none), ("b", none)] "111111"
      = [("a", some "111111"), ("b", none)] ∧
    lookupKey (AnnouncementCog.setFirstPending [("a", none), ("b", none)]
        "111111") "b"
      = some none := by
  refine ⟨by decide, by decide⟩

/-- First-pending resolution of the `on_message` OTP branch: with every
earlier future already resolved, the response lands on the first pending
entry, whatever its correlation id. -/
theorem setFirstPending_append_resolved
    (pre : List (String × Option String)) :
    ∀ rest : List (String × Option String), ∀ id content : String,
      (∀ p ∈ pre, p.2.isSome = true) →
      AnnouncementCog.setFirstPending (pre ++ (id, none) :: rest) content
        = pre ++ (id, some content) :: rest := by
  induction pre with
  | nil => intro rest id content _; rfl
  | cons hd tl ih =>
      intro rest id content hpre
      obtain ⟨a, b⟩ := hd
      have hb := hpre (a, b) (List.mem_cons_self _ _)
      cases b with
      | none => simp at hb
      | some v =>
          have htl : ∀ p ∈ tl, p.2.isSome = true :=
            fun p hp => hpre p (List.mem_cons_of_mem _ hp)
          simp only [List.cons_append, AnnouncementCog.setFirstPending,
            List.append_eq]
          rw [ih rest id content htl]

/-- C8 amended: OTP requests are keyed by a fresh correlation id in the
request table, but an incoming OTP response carries no correlation id and
resolves the first not-yet-done future in registration order — so with
several challenges outstanding a response may resolve a different
challenge's future; an unanswered challenge times out after 300 seconds and
`_request_otp` returns `None`. -/
theorem C8_amended_first_pending_wins
    (pre rest : List (String × Option String)) (id content : String)
    (hpre : ∀ p ∈ pre, p.2.isSome = true) :
    AnnouncementCog.setFirstPending (pre ++ (id, none) :: rest) content
      = pre ++ (id, some content) :: rest ∧
    AnnouncementCog.requestOtpResult AnnouncementCog.OtpWait.timedOut
      = none ∧
    AnnouncementCog.otpTimeoutSeconds = 300 :=
  ⟨setFirstPending_append_resolved pre rest id content hpre, rfl, rfl⟩

/-- Witness for C8 amended: with "a" already resolved, the response resolves
"b", the first pending entry. -/
theorem C8_amended_witness :
    AnnouncementCog.setFirstPending [("a", some "x"), ("b", none)] "222222"
      = [("a", some "x"), ("b", some "222222")] ∧
    AnnouncementCog.otpTimeoutSeconds = 300 := by
  have h := C8_amended_first_pending_wins [("a", some "x")] [] "b" "222222"
    (by decide)
  exact ⟨h.1, h.2.2⟩

/-! ### Claim C6: the history capacity bound -/

theorem mark_completed_max_history (st : AnnouncementState) (m : String) :
    (st.mark_completed m).max_history = st.max_history := rfl

theorem markAll_max (ids : List String) : ∀ st : AnnouncementState,
    (ids.foldl AnnouncementState.mark_completed st).max_history
      = st.max_history := by
  induction ids with
  | nil => intro st; rfl
  | cons x tl ih =>
      intro st
      rw [List.foldl_cons, ih, mark_completed_max_history]

theorem mark_completed_mem_history (st : AnnouncementState) (m : String)
    (h : m ∈ st.history) : (st.mark_completed m).history = st.history := by
  simp [AnnouncementState.mark_completed, h]

theorem mark_completed_not_mem_history (st : AnnouncementState) (m : String)
    (h : m ∉ st.history) :
    (st.mark_completed m).history
      = if st.max_history < (st.history ++ [m]).length
        then pyLastSlice (st.history ++ [m]) st.max_history
        else st.history ++ [m] := by
  simp [AnnouncementState.mark_completed, h]

/-- Completing distinct ids from an empty history leaves exactly the most
recent `cap` of them, in order (`drop` form covers both phases). -/
theorem markAll_history_eq (cap : Nat) (hcap : 0 < cap) :
    ∀ ids : List String, ids.Nodup →
    ∀ st : AnnouncementState, st.history = [] → st.max_history = cap →
    (ids.foldl AnnouncementState.mark_completed st).history
      = ids.drop (ids.length - cap) := by
  intro ids
  induction ids using List.reverseRecOn with
  | nil => intro _ st h0 _; simpa using h0
  | append_singleton ys x ih =>
      intro hn st h0 hmax
      have hn' : ys.Nodup ∧ x ∉ ys := by
        rw [List.nodup_append] at hn
        exact ⟨hn.1, fun hx => hn.2.2 hx (List.mem_singleton_self x)⟩
      rw [List.foldl_append, List.foldl_cons, List.foldl_nil]
      have hhist := ih hn'.1 st h0 hmax
      have hmax' :
          (ys.foldl AnnouncementState.mark_completed st).max_history = cap := by
        rw [markAll_max ys st, hmax]
      have hxnot : x ∉ (ys.foldl AnnouncementState.mark_completed st).history := by
        rw [hhist]
        intro hmem
        exact hn'.2 (List.mem_of_mem_drop hmem)
      rw [mark_completed_not_mem_history _ _ hxnot, hmax', hhist]
      by_cases hcl : cap ≤ ys.length
      · have hdl : (ys.drop (ys.length - cap)).length = cap := by
          rw [List.length_drop]; omega
        have hcond : cap < (ys.drop (ys.length - cap) ++ [x]).length := by
          rw [List.length_append, hdl]; simp
        rw [if_pos hcond]
        have hc0 : ¬cap = 0 := by omega
        simp only [pyLastSlice, hc0, if_false]
        have hlen2 : (ys.drop (ys.length - cap) ++ [x]).length - cap = 1 := by
          rw [List.length_append, hdl]; simp
        rw [hlen2]
        have hr : (ys ++ [x]).drop ((ys ++ [x]).length - cap)
            = ys.drop (ys.length - cap + 1) ++ [x] := by
          have hidx : (ys ++ [x]).length - cap = ys.length - cap + 1 := by
            rw [List.length_append]; simp; omega
          rw [hidx, List.drop_append_of_le_length (by omega)]
        rw [hr, List.drop_append_of_le_length (by omega), List.drop_drop]
      · have h0l : ys.length - cap = 0 := by omega
        have hcond : ¬cap < (ys.drop (ys.length - cap) ++ [x]).length := by
          rw [List.length_append, List.length_drop]; simp; omega
        rw [if_neg hcond, h0l, List.drop_zero]
        have hz : (ys ++ [x]).length - cap = 0 := by
          rw [List.length_append]; simp; omega
        rw [hz, List.drop_zero]

/-- C6: from an empty store with capacity `cap ≥ 1`, completing `N > cap`
distinct request ids leaves `len(history) = cap`, with the history equal to
the most recent `cap` ids in completion order; a duplicate completion never
appends a second entry. -/
theorem C6_history_bound (cap : Nat) (hcap : 0 < cap) (ids : List String)
    (hn : ids.Nodup) (hlen : cap < ids.length) (st0 : AnnouncementState)
    (h0 : st0.history = []) (hmax : st0.max_history = cap) :
    (ids.foldl AnnouncementState.mark_completed st0).history.length = cap ∧
    (ids.foldl AnnouncementState.mark_completed st0).history
      = ids.drop (ids.length - cap) ∧
    (∀ st : AnnouncementState, ∀ m : String, m ∈ st.history →
      (st.mark_completed m).history = st.history) := by
  have h := markAll_history_eq cap hcap ids hn st0 h0 hmax
  refine ⟨?_, h, fun st m hm => mark_completed_mem_history st m hm⟩
  rw [h, List.length_drop]
  omega

/-- Witness for C6 at the spec's example: cap = 5, ids msg0..msg9 completed
in order leave history = [msg5..msg9]. -/
theorem C6_witness :
    ((["msg0", "msg1", "msg2", "msg3", "msg4", "msg5", "msg6", "msg7",
       "msg8", "msg9"].foldl AnnouncementState.mark_completed
        (AnnouncementState.init 5)).history.length = 5) ∧
    ((["msg0", "msg1", "msg2", "msg3", "msg4", "msg5", "msg6", "msg7",
       "msg8", "msg9"].foldl AnnouncementState.mark_completed
        (AnnouncementState.init 5)).history
      = ["msg5", "msg6", "msg7", "msg8", "msg9"]) := by
  have h := C6_history_bound 5 (by decide)
    ["msg0", "msg1", "msg2", "msg3", "msg4", "msg5", "msg6", "msg7",
     "msg8", "msg9"] (by decide) (by decide) (AnnouncementState.init 5)
    rfl rfl
  exact ⟨h.1, h.2.1⟩

/-! ### Claim C2: restore classification -/

theorem lookupKey_map_entries {α : Type} (g : Job → α) :
    ∀ l : List Job, ∀ j : Job, j ∈ l → (l.map Job.id).Nodup →
    lookupKey (l.map (fun x => (x.id, g x))) j.id = some (g j) := by
  intro l
  induction l with
  | nil => intro j hj _; cases hj
  | cons a tl ih =>
      intro j hj hn
      rw [List.map_cons] at hn
      rw [List.nodup_cons] at hn
      rcases List.mem_cons.mp hj with hja | hjtl
      · subst hja
        simp [lookupKey]
      · have hne : a.id ≠ j.id := by
          intro he
          exact hn.1 (he ▸ List.mem_map_of_mem Job.id hjtl)
        rw [List.map_cons]
        simp only [lookupKey, hne, if_false]
        exact ih j hjtl hn.2

theorem lookupKey_map_of_not_mem_ids {α : Type} (g : Job → α) :
    ∀ l : List Job, ∀ k : String, k ∉ l.map Job.id →
    lookupKey (l.map (fun x => (x.id, g x))) k = none := by
  intro l
  induction l with
  | nil => intro k _; rfl
  | cons a tl ih =>
      intro k hk
      rw [List.map_cons] at hk
      have hne : ¬a.id = k := fun he => hk (he ▸ List.mem_cons_self _ _)
      rw [List.map_cons]
      simp only [lookupKey, hne, if_false]
      exact ih k (fun hmem => hk (List.mem_cons_of_mem _ hmem))

/-- Structure of the `restore_jobs` fold: future snapshots append their timer
registration (no explicit grace) and their fixed-up record, past-due
snapshots accumulate in the skipped list, and the count totals the
registrations. -/
theorem restore_fold_spec (now : Int) :
    ∀ l : List Job, ∀ st : SchedulerState, ∀ c : Nat, ∀ sk : List Job,
      (∀ j ∈ l, lookupKey st.timers j.id = none ∧
        lookupKey st.jobs j.id = none) →
      (l.map Job.id).Nodup →
      (l.foldl (SchedulerState.restoreStep now) (st, c, sk)).1.timers
          = st.timers
            ++ (l.filter (fun j => !decide (j.timestamp ≤ now))).map
                (fun x =>
                  (x.id, ({ runTimestamp := x.timestamp, misfire_grace_time := none } : TimerReg))) ∧
      (l.foldl (SchedulerState.restoreStep now) (st, c, sk)).1.jobs
          = st.jobs
            ++ (l.filter (fun j => !decide (j.timestamp ≤ now))).map
                (fun x =>
                  (x.id, { x with event_title := some (x.event_title.getD x.title) })) ∧
      (l.foldl (SchedulerState.restoreStep now) (st, c, sk)).2.1
          = c + (l.filter (fun j => !decide (j.timestamp ≤ now))).length ∧
      (l.foldl (SchedulerState.restoreStep now) (st, c, sk)).2.2
          = sk ++ l.filter (fun j => decide (j.timestamp ≤ now)) := by
  intro l
  induction l with
  | nil => intro st c sk _ _; simp
  | cons j tl ih =>
      intro st c sk hfresh hn
      have hj := hfresh j (List.mem_cons_self _ _)
      rw [List.map_cons, List.nodup_cons] at hn
      by_cases hle : j.timestamp ≤ now
      · have hstep : SchedulerState.restoreStep now (st, c, sk) j
            = (st, c, sk ++ [j]) := by
          simp [SchedulerState.restoreStep, hle]
        rw [List.foldl_cons, hstep]
        have htl := ih st c (sk ++ [j])
          (fun x hx => hfresh x (List.mem_cons_of_mem _ hx)) hn.2
        refine ⟨?_, ?_, ?_, ?_⟩
        · rw [htl.1]; simp [List.filter_cons, hle]
        · rw [htl.2.1]; simp [List.filter_cons, hle]
        · rw [htl.2.2.1]; simp [List.filter_cons, hle]
        · rw [htl.2.2.2]; simp [List.filter_cons, hle]
      · have hstep : SchedulerState.restoreStep now (st, c, sk) j
            = ({ timers := st.timers ++ [(j.id, ({ runTimestamp := j.timestamp, misfire_grace_time := none } : TimerReg))],
                 jobs := st.jobs ++ [(j.id, { j with event_title := some (j.event_title.getD j.title) })] },
               c + 1, sk) := by
          simp [SchedulerState.restoreStep, hle, SchedulerState.add_job,
            hj.1, upsert_of_lookup_none _ hj.2]
        rw [List.foldl_cons, hstep]
        have hfr1 : ∀ x ∈ tl,
            lookupKey (st.timers ++ [(j.id, ({ runTimestamp := j.timestamp, misfire_grace_time := none } : TimerReg))]) x.id = none ∧
            lookupKey (st.jobs ++ [(j.id, { j with event_title := some (j.event_title.getD j.title) })]) x.id = none := by
          intro x hx
          have hx0 := hfresh x (List.mem_cons_of_mem _ hx)
          have hne : ¬j.id = x.id := by
            intro he
            exact hn.1 (he ▸ List.mem_map_of_mem Job.id hx)
          constructor
          · rw [lookupKey_append_of_none _ hx0.1]
            simp [lookupKey, hne]
          · rw [lookupKey_append_of_none _ hx0.2]
            simp [lookupKey, hne]
        have htl := ih
          { timers := st.timers ++ [(j.id, ({ runTimestamp := j.timestamp, misfire_grace_time := none } : TimerReg))],
            jobs := st.jobs ++ [(j.id, { j with event_title := some (j.event_title.getD j.title) })] }
          (c + 1) sk hfr1 hn.2
        refine ⟨?_, ?_, ?_, ?_⟩
        · rw [htl.1]; simp [List.filter_cons, hle]
        · rw [htl.2.1]; simp [List.filter_cons, hle]
        · rw [htl.2.2.1]; simp [List.filter_cons, hle]; omega
        · rw [htl.2.2.2]; simp [List.filter_cons, hle]

/-- C2: for a snapshot list of well-formed jobs with fresh, distinct ids,
`restore_jobs` skips exactly the snapshots with `timestamp ≤ now` (they are
neither registered nor added to the live table, only reported), re-registers
and stores every other snapshot — with `event_title` defaulted to `title`
when absent — and returns a `restored_count` equal to their number. -/
theorem C2_restore_jobs_classification (st : SchedulerState) (now : Int)
    (l : List Job)
    (hfresh : ∀ j ∈ l, lookupKey st.timers j.id = none ∧
      lookupKey st.jobs j.id = none)
    (hn : (l.map Job.id).Nodup) :
    (st.restore_jobs now l).2.2
      = l.filter (fun j => decide (j.timestamp ≤ now)) ∧
    (st.restore_jobs now l).2.1
      = (l.filter (fun j => !decide (j.timestamp ≤ now))).length ∧
    (∀ j ∈ l, ¬j.timestamp ≤ now →
      lookupKey (st.restore_jobs now l).1.timers j.id
        = some { runTimestamp := j.timestamp, misfire_grace_time := none } ∧
      lookupKey (st.restore_jobs now l).1.jobs j.id
        = some { j with event_title := some (j.event_title.getD j.title) }) ∧
    (∀ j ∈ l, j.timestamp ≤ now →
      lookupKey (st.restore_jobs now l).1.timers j.id = none ∧
      lookupKey (st.restore_jobs now l).1.jobs j.id = none) := by
  have hspec := restore_fold_spec now l st 0 [] hfresh hn
  have hnf : ((l.filter (fun j => !decide (j.timestamp ≤ now))).map
      Job.id).Nodup :=
    hn.sublist ((List.filter_sublist l).map Job.id)
  refine ⟨by rw [SchedulerState.restore_jobs, hspec.2.2.2]; simp,
    by rw [SchedulerState.restore_jobs, hspec.2.2.1]; simp, ?_, ?_⟩
  · intro j hj hfut
    have hmemf : j ∈ l.filter (fun j => !decide (j.timestamp ≤ now)) :=
      List.mem_filter.mpr ⟨hj, by simp [hfut]⟩
    constructor
    · rw [SchedulerState.restore_jobs, hspec.1,
        lookupKey_append_of_none _ (hfresh j hj).1]
      exact lookupKey_map_entries _ _ j hmemf hnf
    · rw [SchedulerState.restore_jobs, hspec.2.1,
        lookupKey_append_of_none _ (hfresh j hj).2]
      exact lookupKey_map_entries _ _ j hmemf hnf
  · intro j hj hpast
    have hnot : j.id ∉ (l.filter (fun j => !decide (j.timestamp ≤ now))).map
        Job.id := by
      intro hmem
      obtain ⟨x, hx, hxid⟩ := List.mem_map.mp hmem
      have hxl := List.mem_of_mem_filter hx
      have hpx := List.of_mem_filter hx
      have hxj : x = j := List.inj_on_of_nodup_map hn hxl hj hxid
      rw [hxj] at hpx
      simp [hpast] at hpx
    constructor
    · rw [SchedulerState.restore_jobs, hspec.1,
        lookupKey_append_of_none _ (hfresh j hj).1]
      exact lookupKey_map_of_not_mem_ids _ _ j.id hnot
    · rw [SchedulerState.restore_jobs, hspec.2.1,
        lookupKey_append_of_none _ (hfresh j hj).2]
      exact lookupKey_map_of_not_mem_ids _ _ j.id hnot

/-- Witness for C2: one past-due and one future snapshot restored into an
empty scheduler — the past one is skipped and unregistered, the future one is
counted, registered, and stored with its missing `event_title` defaulted. -/
theorem C2_witness :
    ((SchedulerState.mk [] []).restore_jobs 1000
        [{ id := "a", message_id := "ma", timestamp := 500,
           event_start_timestamp := none, event_end_timestamp := none,
           title := "ta", event_title := some "ta", content := "ca",
           status := JobStatus.pending },
         { id := "b", message_id := "mb", timestamp := 2000,
           event_start_timestamp := none, event_end_timestamp := none,
           title := "tb", event_title := none, content := "cb",
           status := JobStatus.pending }]).2.2
      = [{ id := "a", message_id := "ma", timestamp := 500,
           event_start_timestamp := none, event_end_timestamp := none,
           title := "ta", event_title := some "ta", content := "ca",
           status := JobStatus.pending }] ∧
    ((SchedulerState.mk [] []).restore_jobs 1000
        [{ id := "a", message_id := "ma", timestamp := 500,
           event_start_timestamp := none, event_end_timestamp := none,
           title := "ta", event_title := some "ta", content := "ca",
           status := JobStatus.pending },
         { id := "b", message_id := "mb", timestamp := 2000,
           event_start_timestamp := none, event_end_timestamp := none,
           title := "tb", event_title := none, content := "cb",
           status := JobStatus.pending }]).2.1 = 1 ∧
    lookupKey ((SchedulerState.mk [] []).restore_jobs 1000
        [{ id := "a", message_id := "ma", timestamp := 500,
           event_start_timestamp := none, event_end_timestamp := none,
           title := "ta", event_title := some "ta", content := "ca",
           status := JobStatus.pending },
         { id := "b", message_id := "mb", timestamp := 2000,
           event_start_timestamp := none, event_end_timestamp := none,
           title := "tb", event_title := none, content := "cb",
           status := JobStatus.pending }]).1.jobs "b"
      = some { id := "b", message_id := "mb", timestamp := 2000,
               event_start_timestamp := none, event_end_timestamp := none,
               title := "tb", event_title := some "tb", content := "cb",
               status := JobStatus.pending } ∧
    lookupKey ((SchedulerState.mk [] []).restore_jobs 1000
        [{ id := "a", message_id := "ma", timestamp := 500,
           event_start_timestamp := none, event_end_timestamp := none,
           title := "ta", event_title := some "ta", content := "ca",
           status := JobStatus.pending },
         { id := "b", message_id := "mb", timestamp := 2000,
           event_start_timestamp := none, event_end_timestamp := none,
           title := "tb", event_title := none, content := "cb",
           status := JobStatus.pending }]).1.timers "a" = none := by
  have h := C2_restore_jobs_classification (SchedulerState.mk [] []) 1000
    [{ id := "a", message_id := "ma", timestamp := 500,
       event_start_timestamp := none, event_end_timestamp := none,
       title := "ta", event_title := some "ta", content := "ca",
       status := JobStatus.pending },
     { id := "b", message_id := "mb", timestamp := 2000,
       event_start_timestamp := none, event_end_timestamp := none,
       title := "tb", event_title := none, content := "cb",
       status := JobStatus.pending }]
    (by intro j hj; exact ⟨rfl, rfl⟩) (by decide)
  refine ⟨h.1, h.2.1, ?_, ?_⟩
  · exact (h.2.2.1
      { id := "b", message_id := "mb", timestamp := 2000,
        event_start_timestamp := none, event_end_timestamp := none,
        title := "tb", event_title := none, content := "cb",
        status := JobStatus.pending } (by simp) (by decide)).2
  · exact (h.2.2.2
      { id := "a", message_id := "ma", timestamp := 500,
        event_start_timestamp := none, event_end_timestamp := none,
        title := "ta", event_title := some "ta", content := "ca",
        status := JobStatus.pending } (by simp) (by decide)).1

end Kokuchi
